import Mathlib

/-!
Verification of the MAX31335 RTC driver sources against their
natural-language specification.

The driver code (rtc-max31335.c draft, `max31335_*` functions) is shallowly
embedded: registers are a byte file `Nat → Nat`, every regmap transaction is
explicit and may fail according to an error oracle, and the C structs
`rtc_time` / `rtc_wkalrm` become Lean structures with `Int` fields matching
the C `int` fields.
-/

/- Register addresses (from the `#define` block of the source). -/

def MAX31335_STATUS1 : Nat := 0x00
def MAX31335_INT_EN : Nat := 0x01
def MAX31335_SECONDS : Nat := 0x0A
def MAX31335_MINUTES : Nat := 0x0B
def MAX31335_HOURS : Nat := 0x0C
def MAX31335_DAY : Nat := 0x0D
def MAX31335_DATE : Nat := 0x0E
def MAX31335_MONTH : Nat := 0x0F

/-- In the source `MAX31335_YEAR` is defined as `0x0F`, the same address as
`MAX31335_MONTH`; the bulk transfers never use this constant (they address the
year byte as `MAX31335_SECONDS + 6 = 0x10`), so the duplicate is inert. -/
def MAX31335_YEAR : Nat := 0x0F

def MAX31335_ALM1_SEC : Nat := 0x11
def MAX31335_ALM1_YEAR : Nat := 0x16
def MAX31335_TRICKLE_REG : Nat := 0x1D
def MAX31335_AGING_OFFSET : Nat := 0x1E
def MAX31335_TEMP_DATA_MSB : Nat := 0x35
def MAX31335_TEMP_DATA_LSB : Nat := 0x36

/- Bit fields.  `BIT(n)` is `2^n`; `GENMASK(3,1)` is `0b1110`. -/

def MAX31335_STATUS1_A1F : Nat := 1
def MAX31335_INT_EN1_A1IE : Nat := 1
def MAX31335_TRICKLE : Nat := 0xE
def MAX31335_EN_TRICKLE : Nat := 1
def MAX31335_HRS_F_AM_PM : Nat := 0x20
def MAX31335_HRS_F_12_24 : Nat := 0x40
def MAX31335_MONTH_CENTURY : Nat := 0x80

/-- Modelled from the spec: `MAX31335_TIME_SIZE` is referenced by
`max31335_volatile_reg` but defined nowhere in the sources.  The spec's
time-keeping range is the block SECONDS..YEAR that `max31335_read_time`
transfers in one bulk read of 7 bytes, so the size is 7. -/
def MAX31335_TIME_SIZE : Nat := 7

/- BCD codec, from linux/bcd.h.  Both take a `u8` argument, hence the
`% 256` truncation of the incoming value. -/

/-- `bcd2bin(x) = (x & 0x0f) + (x >> 4) * 10` on a `u8` argument. -/
def bcd2bin (x : Nat) : Nat :=
  ((x % 256) &&& 0x0f) + ((x % 256) >>> 4) * 10

/-- `bin2bcd(x) = ((x / 10) << 4) + x % 10` on a `u8` argument, result
truncated to `u8`. -/
def bin2bcd (x : Nat) : Nat :=
  (((x % 256) / 10) * 16 + (x % 256) % 10) % 256

/-- Conversion of a C `int` expression to the `u8` it becomes when passed to a
`u8` parameter (two's-complement truncation). -/
def toU8 (i : Int) : Nat := (i % 256).toNat

/- The C structs seen by the driver. -/

/-- The seven fields of `struct rtc_time` that the driver reads and writes
(`tm_yday`/`tm_isdst` are never touched).  All are C `int`s. -/
structure rtc_time where
  tm_sec : Int
  tm_min : Int
  tm_hour : Int
  tm_mday : Int
  tm_mon : Int
  tm_year : Int
  tm_wday : Int
deriving DecidableEq, Repr

def rtc_time.zero : rtc_time := ⟨0, 0, 0, 0, 0, 0, 0⟩

/-- `struct rtc_wkalrm`: alarm time plus the enabled/pending flags. -/
structure rtc_wkalrm where
  enabled : Bool
  pending : Bool
  time : rtc_time
deriving DecidableEq, Repr

/- The register-access collaborator (regmap).  A register file of bytes plus
an error oracle: transaction number `n` of an execution fails with errno
`fails n` when that is `some e`.  Reads do not change the file; a failed
write leaves it unchanged. -/

structure Bus where
  regs : Nat → Nat
  fails : Nat → Option Int
  tick : Nat

/-- `regmap_read`: one transaction returning the register byte. -/
def busRead (b : Bus) (addr : Nat) : Except Int Nat × Bus :=
  match b.fails b.tick with
  | some e => (Except.error e, { b with tick := b.tick + 1 })
  | none => (Except.ok (b.regs addr), { b with tick := b.tick + 1 })

/-- `regmap_write`: one transaction storing the low byte of `v`. -/
def busWrite (b : Bus) (addr v : Nat) : Except Int Unit × Bus :=
  match b.fails b.tick with
  | some e => (Except.error e, { b with tick := b.tick + 1 })
  | none =>
    (Except.ok (),
     { regs := fun a => if a = addr then v % 256 else b.regs a,
       fails := b.fails, tick := b.tick + 1 })

/-- `regmap_update_bits`: read-modify-write under a mask,
`new = (old & ~mask) | (val & mask)`, one transaction. -/
def busUpdateBits (b : Bus) (addr mask v : Nat) : Except Int Unit × Bus :=
  match b.fails b.tick with
  | some e => (Except.error e, { b with tick := b.tick + 1 })
  | none =>
    (Except.ok (),
     { regs := fun a =>
         if a = addr then ((b.regs addr &&& (0xFF ^^^ mask)) ||| (v &&& mask)) % 256
         else b.regs a,
       fails := b.fails, tick := b.tick + 1 })

/-- The bytes at `addr, addr+1, ...` of a register file. -/
def readBytes (regs : Nat → Nat) (addr : Nat) : Nat → List Nat
  | 0 => []
  | n + 1 => regs addr :: readBytes regs (addr + 1) n

/-- Sequentially store a list of bytes starting at `addr`. -/
def writeBytes (regs : Nat → Nat) (addr : Nat) : List Nat → (Nat → Nat)
  | [] => regs
  | v :: rest => writeBytes (fun a => if a = addr then v % 256 else regs a) (addr + 1) rest

/-- `regmap_bulk_read`: one transaction returning `len` consecutive bytes. -/
def busBulkRead (b : Bus) (addr len : Nat) : Except Int (List Nat) × Bus :=
  match b.fails b.tick with
  | some e => (Except.error e, { b with tick := b.tick + 1 })
  | none => (Except.ok (readBytes b.regs addr len), { b with tick := b.tick + 1 })

/-- `regmap_bulk_write`: one transaction storing consecutive bytes. -/
def busBulkWrite (b : Bus) (addr : Nat) (data : List Nat) : Except Int Unit × Bus :=
  match b.fails b.tick with
  | some e => (Except.error e, { b with tick := b.tick + 1 })
  | none =>
    (Except.ok (),
     { regs := writeBytes b.regs addr data, fails := b.fails, tick := b.tick + 1 })

/- ------------------------------------------------------------------ -/
/- The driver functions, translated line by line from the source.     -/
/- ------------------------------------------------------------------ -/

/-- `max31335_volatile_reg`.  Transcribed exactly: the temperature check of the
source is `reg == MAX31335_TEMP_DATA_MSB || MAX31335_TEMP_DATA_LSB`, whose
second operand is the constant `0x36` and therefore always truthy; the final
fall-off-the-end of the C function (it has no closing `return`) is
unreachable because that branch always returns `true`, and is rendered here
as `false`. -/
def max31335_volatile_reg (reg : Nat) : Bool :=
  if MAX31335_SECONDS ≤ reg ∧ reg < MAX31335_SECONDS + MAX31335_TIME_SIZE then true
  else if reg = MAX31335_INT_EN1_A1IE then true
  else if reg = MAX31335_TEMP_DATA_MSB ∨ MAX31335_TEMP_DATA_LSB ≠ 0 then true
  else false

/-- `max31335_get_hour` on a `u8` register byte: branch on the 12/24 mode bit
(bit 6); in 12-hour mode decode 5-bit BCD, map 12 to 0, and add 12 when the
AM/PM bit (bit 5) is set.  The C return type is `int` but every value produced
is nonnegative, so the Lean result is a `Nat`. -/
def max31335_get_hour (hour_reg : Nat) : Nat :=
  if (hour_reg >>> 6) &&& 1 = 0 then
    bcd2bin (hour_reg &&& 0x3f)
  else
    let hour := bcd2bin (hour_reg &&& 0x1f)
    let hour := if hour = 12 then 0 else hour
    if (hour_reg >>> 5) &&& 1 ≠ 0 then hour + 12 else hour

/-- `max31335_read_time`: bulk-read 7 bytes at SECONDS and decode them.  The
caller's `rtc_time` is threaded in/out: as in the C, nothing is stored into it
before the bulk read's error check, so on failure it is returned unchanged. -/
def max31335_read_time (b : Bus) (tm : rtc_time) :
    Except Int Unit × Bus × rtc_time :=
  match busBulkRead b MAX31335_SECONDS 7 with
  | (Except.error e, b1) => (Except.error e, b1, tm)
  | (Except.ok date, b1) =>
    let d := fun i => date.getD i 0
    (Except.ok (), b1,
      { tm_sec := (bcd2bin (d 0 &&& 0x7f) : Int),
        tm_min := (bcd2bin (d 1 &&& 0x7f) : Int),
        tm_hour := (max31335_get_hour (d 2) : Int),
        tm_wday := (bcd2bin (d 3 &&& 0x7) : Int) - 1,
        tm_mday := (bcd2bin (d 4 &&& 0x3f) : Int),
        tm_mon := (bcd2bin (d 5 &&& 0x1f) : Int) - 1,
        tm_year := (bcd2bin (d 6) : Int) + 100 +
          (if (d 5 >>> 7) &&& 1 ≠ 0 then 100 else 0) })

/-- `max31335_set_time`: encode the seven fields (century bit into the month
byte when `tm_year >= 200`) and bulk-write them at SECONDS. -/
def max31335_set_time (b : Bus) (tm : rtc_time) : Except Int Unit × Bus :=
  let date : List Nat :=
    [bin2bcd (toU8 tm.tm_sec),
     bin2bcd (toU8 tm.tm_min),
     bin2bcd (toU8 tm.tm_hour),
     bin2bcd (toU8 (tm.tm_wday + 1)),
     bin2bcd (toU8 tm.tm_mday),
     (let d5 := bin2bcd (toU8 (tm.tm_mon + 1));
      if 200 ≤ tm.tm_year then d5 ||| MAX31335_MONTH_CENTURY else d5),
     bin2bcd (toU8 (tm.tm_year % 100))]
  busBulkWrite b MAX31335_SECONDS date

/-- `max31335_read_offset`: read the aging-offset register and store its raw
value into `*offset` (the source performs no sign extension; the `u32` value
is assigned to the `long` unchanged). -/
def max31335_read_offset (b : Bus) : Except Int Int × Bus :=
  match busRead b MAX31335_AGING_OFFSET with
  | (Except.error e, b1) => (Except.error e, b1)
  | (Except.ok value, b1) => (Except.ok (value : Int), b1)

/-- `max31335_set_offset`: `regmap_write` of the `long` offset; the C
conversion to the `unsigned int` parameter takes the value mod 2^32, and the
8-bit register keeps the low byte. -/
def max31335_set_offset (b : Bus) (offset : Int) : Except Int Unit × Bus :=
  busWrite b MAX31335_AGING_OFFSET ((offset % (4294967296 : Int)).toNat)

/-- `max31335_read_alarm`: bulk-read the 6 alarm registers and decode them
into the caller's `alrm->time` (the alarm hour decode uses the plain 6-bit
mask, not the 12/24 branch); then call `max31335_read_time` into a local
`struct rtc_time` and add 100 years to the alarm year when the current
`tm_year >= 200`; finally read INT_EN and STATUS1 for the enabled/pending
bits.  The caller's struct is threaded so that each partial update is
visible exactly where the C stores it. -/
def max31335_read_alarm (b : Bus) (alrm : rtc_wkalrm) :
    Except Int Unit × Bus × rtc_wkalrm :=
  match busBulkRead b MAX31335_ALM1_SEC 6 with
  | (Except.error e, b1) => (Except.error e, b1, alrm)
  | (Except.ok regs, b1) =>
    let g := fun i => regs.getD i 0
    let alrm1 : rtc_wkalrm :=
      { alrm with time :=
        { alrm.time with
          tm_sec := (bcd2bin (g 0 &&& 0x7f) : Int),
          tm_min := (bcd2bin (g 1 &&& 0x7f) : Int),
          tm_hour := (bcd2bin (g 2 &&& 0x3f) : Int),
          tm_mday := (bcd2bin (g 3 &&& 0x3f) : Int),
          tm_mon := (bcd2bin (g 4 &&& 0x1f) : Int) - 1,
          tm_year := (bcd2bin (g 5) : Int) + 100 } }
    match max31335_read_time b1 rtc_time.zero with
    | (Except.error e, b2, _) => (Except.error e, b2, alrm1)
    | (Except.ok _, b2, time) =>
      let alrm2 : rtc_wkalrm :=
        if 200 ≤ time.tm_year then
          { alrm1 with time := { alrm1.time with tm_year := alrm1.time.tm_year + 100 } }
        else alrm1
      match busRead b2 MAX31335_INT_EN with
      | (Except.error e, b3) => (Except.error e, b3, alrm2)
      | (Except.ok ctrl, b3) =>
        match busRead b3 MAX31335_STATUS1 with
        | (Except.error e, b4) => (Except.error e, b4, alrm2)
        | (Except.ok status, b4) =>
          (Except.ok (), b4,
           { alrm2 with
             enabled := (ctrl >>> 0) &&& 1 == 1,
             pending := (status >>> 0) &&& 1 == 1 })

/-- `max31335_set_alarm`: encode the 6 alarm fields, bulk-write them at
ALM1_SEC, then `return regmap_update_bits(INT_EN, A1IE, enabled-bit)`.
The source's lines after that `return` — the second error check and the
`regmap_update_bits(STATUS1, A1F, 0)` pending-flag clear — are unreachable
dead code and therefore do not appear in the embedding. -/
def max31335_set_alarm (b : Bus) (alrm : rtc_wkalrm) : Except Int Unit × Bus :=
  let regs : List Nat :=
    [bin2bcd (toU8 alrm.time.tm_sec),
     bin2bcd (toU8 alrm.time.tm_min),
     bin2bcd (toU8 alrm.time.tm_hour),
     bin2bcd (toU8 alrm.time.tm_mday),
     bin2bcd (toU8 (alrm.time.tm_mon + 1)),
     bin2bcd (toU8 (alrm.time.tm_year % 100))]
  match busBulkWrite b MAX31335_ALM1_SEC regs with
  | (Except.error e, b1) => (Except.error e, b1)
  | (Except.ok _, b1) =>
    let reg : Nat := if alrm.enabled then 1 else 0
    busUpdateBits b1 MAX31335_INT_EN MAX31335_INT_EN1_A1IE reg

/-- `irqreturn_t` outcomes the handler can produce. -/
inductive irqreturn where
  | IRQ_NONE
  | IRQ_HANDLED
deriving DecidableEq, Repr

/-- `max31335_handle_irq`: read STATUS1; if the A1F bit is set, clear it with
a masked write and call `rtc_update_irq` once; always return `IRQ_HANDLED`
(mutex lock/unlock frame the body and are identity in this single-threaded
embedding).  The third component counts the `rtc_update_irq` upcalls of the
invocation. -/
def max31335_handle_irq (b : Bus) : irqreturn × Bus × Nat :=
  match busRead b MAX31335_STATUS1 with
  | (Except.error _, b1) => (irqreturn.IRQ_HANDLED, b1, 0)
  | (Except.ok status, b1) =>
    if (status >>> 0) &&& 1 ≠ 0 then
      match busUpdateBits b1 MAX31335_STATUS1 MAX31335_STATUS1_A1F 0 with
      | (Except.error _, b2) => (irqreturn.IRQ_HANDLED, b2, 0)
      | (Except.ok _, b2) => (irqreturn.IRQ_HANDLED, b2, 1)
    else (irqreturn.IRQ_HANDLED, b1, 0)

/-- The supported trickle-charger resistor table. -/
def max31335_trickle_resistors : List Nat := [3000, 6000, 11000]

/-- `max31335_trickle_charger_setup`.  The two device properties are passed
in (`none` models an absent "trickle-resistor-ohms" property).  The linear
search over the resistor table is `List.findIdx`, which, like the C loop,
yields the table length when no entry matches.  The `Bool` in the result
records whether `dev_warn` was called. -/
def max31335_trickle_charger_setup (b : Bus) (trickle_resistor_ohms : Option Nat)
    (trickle_diode_enable : Bool) : Except Int Unit × Bus × Bool :=
  match trickle_resistor_ohms with
  | none => (Except.ok (), b, false)
  | some ohms =>
    let i := max31335_trickle_resistors.findIdx (fun r => ohms == r)
    if max31335_trickle_resistors.length ≤ i then
      (Except.ok (), b, true)
    else
      let i := if trickle_diode_enable then i + 4 else i + 1
      let w := busWrite b MAX31335_TRICKLE_REG (((i <<< 1) &&& MAX31335_TRICKLE) ||| MAX31335_EN_TRICKLE)
      (w.1, w.2, false)

/-- Modelled from the spec: `RTC_TIMESTAMP_BEGIN_2000` is the Linux RTC
framework's constant (include/linux/rtc.h) for 2000-01-01T00:00:00 UTC as
seconds since the Unix epoch; `max31335_probe` assigns it to `range_min`. -/
def RTC_TIMESTAMP_BEGIN_2000 : Int := 946684800

/-- Modelled from the spec: `RTC_TIMESTAMP_END_2199` is the Linux RTC
framework's constant (include/linux/rtc.h) for 2199-12-31T23:59:59 UTC as
seconds since the Unix epoch; `max31335_probe` assigns it to `range_max`. -/
def RTC_TIMESTAMP_END_2199 : Int := 7258118399

/-- The civil-time range `max31335_probe` declares to the RTC framework:
`rtc->range_min = RTC_TIMESTAMP_BEGIN_2000; rtc->range_max =
RTC_TIMESTAMP_END_2199`. -/
def max31335_range_min : Int := RTC_TIMESTAMP_BEGIN_2000

def max31335_range_max : Int := RTC_TIMESTAMP_END_2199

/-- Days from the Unix epoch to civil date `(y, m, d)` of the proleptic
Gregorian calendar (standard era-based algorithm over integer division; all
divisions hit nonnegative operands for the years considered here). -/
def daysFromCivil (y m d : Int) : Int :=
  let y := y - (if m ≤ 2 then 1 else 0)
  let era := y / 400
  let yoe := y - era * 400
  let doy := (153 * (m + (if 2 < m then -3 else 9)) + 2) / 5 + d - 1
  let doe := yoe * 365 + yoe / 4 - yoe / 100 + doy
  era * 146097 + doe - 719468

/-- Seconds from the Unix epoch to the civil time
`(y, m, d, hh, mm, ss)` UTC. -/
def civilToEpoch (y m d hh mm ss : Int) : Int :=
  daysFromCivil y m d * 86400 + hh * 3600 + mm * 60 + ss

/-- The volatile-register predicate as the spec words it: the time-keeping
range, the single interrupt-status register (STATUS1), and the two
temperature-data registers are volatile; nothing else is. -/
def volatile_reg_spec (reg : Nat) : Bool :=
  decide ((MAX31335_SECONDS ≤ reg ∧ reg < MAX31335_SECONDS + MAX31335_TIME_SIZE) ∨
    reg = MAX31335_STATUS1 ∨ reg = MAX31335_TEMP_DATA_MSB ∨ reg = MAX31335_TEMP_DATA_LSB)

/- Concrete fixtures used by witnesses and counterexamples. -/

/-- A bus whose registers all read 0 and whose transactions all succeed. -/
def busZero : Bus := ⟨fun _ => 0, fun _ => none, 0⟩

/-- A bus whose first transaction fails with errno -5 (`-EIO`). -/
def busFail : Bus := ⟨fun _ => 0, fun n => if n = 0 then some (-5) else none, 0⟩

/-- A fault-free bus whose STATUS1 register has the A1F alarm-pending flag
latched. -/
def busA1F : Bus := ⟨fun a => if a = MAX31335_STATUS1 then 1 else 0, fun _ => none, 0⟩

/-- A fault-free bus holding current time 2105-01-xx (month register `0x81`:
month 1 with the century bit, year register BCD `05`) and an alarm year
register holding BCD `07`. -/
def busC5 : Bus :=
  ⟨fun a => if a = 0x0F then 0x81 else if a = 0x10 then 0x05 else if a = 0x16 then 0x07 else 0,
   fun _ => none, 0⟩

/-- An in-range civil time, 2199-12-29T23:34:56 (tm_year 299), used to
witness the round-trip theorem. -/
def tmWitness : rtc_time := ⟨56, 34, 23, 29, 11, 299, 6⟩

/-- An arbitrary alarm descriptor fixture. -/
def alrmZero : rtc_wkalrm := ⟨false, false, rtc_time.zero⟩

/-- An enabled alarm descriptor with an in-range time. -/
def alrmEx : rtc_wkalrm := ⟨true, false, ⟨0, 0, 0, 1, 0, 100, 0⟩⟩

/- ------------------------------------------------------------------ -/
/- Helper lemmas: BCD round trips for each field, shaped as they      -/
/- appear after a bulk write (every stored byte carries a `% 256`).   -/
/- ------------------------------------------------------------------ -/

theorem bcd_roundtrip_sec : ∀ n < 60, bcd2bin ((bin2bcd n % 256) &&& 0x7f) = n := by decide

theorem bcd_roundtrip_hour : ∀ n < 24, max31335_get_hour (bin2bcd n % 256) = n := by decide

theorem bcd_roundtrip_wday : ∀ n < 7, bcd2bin ((bin2bcd (n + 1) % 256) &&& 0x7) = n + 1 := by
  decide

theorem bcd_roundtrip_mday : ∀ n < 32, bcd2bin ((bin2bcd n % 256) &&& 0x3f) = n := by decide

theorem bcd_roundtrip_mon : ∀ n < 12,
    bcd2bin (((bin2bcd (n + 1) ||| 128) % 256) &&& 0x1f) = n + 1 ∧
    bcd2bin ((bin2bcd (n + 1) % 256) &&& 0x1f) = n + 1 := by decide

theorem bcd_century_bit : ∀ n < 12,
    (((bin2bcd (n + 1) ||| 128) % 256) >>> 7) &&& 1 = 1 ∧
    ((bin2bcd (n + 1) % 256) >>> 7) &&& 1 = 0 := by decide

theorem bcd_roundtrip_year : ∀ n < 100, bcd2bin (bin2bcd n % 256) = n := by decide

theorem readBytes_writeBytes_7 (regs : Nat → Nat) (a0 a1 a2 a3 a4 a5 a6 : Nat) :
    readBytes (writeBytes regs 10 [a0, a1, a2, a3, a4, a5, a6]) 10 7 =
      [a0 % 256, a1 % 256, a2 % 256, a3 % 256, a4 % 256, a5 % 256, a6 % 256] := by
  simp [readBytes, writeBytes]

/- ------------------------------------------------------------------ -/
/- Claim theorems.                                                    -/
/- ------------------------------------------------------------------ -/

/-- Claim C3: the volatile-register predicate is claimed to return true
exactly on the time-keeping range, the interrupt-status register and the two
temperature-data registers, and false elsewhere in 0x00-0x5F.  The code
instead returns true for every register: its temperature condition
`reg == MAX31335_TEMP_DATA_MSB || MAX31335_TEMP_DATA_LSB` has the nonzero
constant `0x36` as second operand.  This theorem evaluates the code on all
inputs; e.g. at reg = 0x05 it yields true where the claim demands false
(`volatile_reg_spec 0x05 = false`). -/
theorem c3_volatile_reg_always_true :
    (∀ reg, max31335_volatile_reg reg = true) ∧ volatile_reg_spec 0x05 = false := by
  refine ⟨fun reg => ?_, by decide⟩
  unfold max31335_volatile_reg
  split
  · rfl
  · split
    · rfl
    · rw [if_pos (Or.inr (by decide))]

/-- Claim C4: the hour codec branches on the 12/24-mode bit (bit 6).  In
12-hour mode the byte for hour 0 is BCD `12` with the AM state (AM/PM bit 5
clear): decoding `0x40 ||| 0x12` yields 0, and among the 12-hour-AM bytes for
BCD values 1..12 it is exactly the BCD-12 byte that decodes to hour 0 (so
the 12-hour encoding of hour 0 is BCD 12 + AM); decoding BCD 1..11 with the
PM bit set yields hours 13..23. -/
theorem c4_hour_codec (h : Nat) (h1 : 1 ≤ h) (h2 : h ≤ 11) :
    max31335_get_hour (MAX31335_HRS_F_12_24 ||| 0x12) = 0 ∧
    (∀ n < 13, 1 ≤ n → (max31335_get_hour (MAX31335_HRS_F_12_24 ||| bin2bcd n) = 0 ↔ n = 12)) ∧
    max31335_get_hour (MAX31335_HRS_F_12_24 ||| MAX31335_HRS_F_AM_PM ||| bin2bcd h) = h + 12 := by
  refine ⟨by decide, by decide, ?_⟩
  interval_cases h <;> decide

theorem c4_hour_codec_witness :
    max31335_get_hour (MAX31335_HRS_F_12_24 ||| MAX31335_HRS_F_AM_PM ||| bin2bcd 5) = 5 + 12 :=
  (c4_hour_codec 5 (by decide) (by decide)).2.2

/-- Claim C9: the range that `max31335_probe` declares to the RTC framework
has minimum 2000-01-01T00:00:00 and maximum 2199-12-31T23:59:59 (as seconds
since the Unix epoch, via the Gregorian day-count). -/
theorem c9_declared_range :
    max31335_range_min = civilToEpoch 2000 1 1 0 0 0 ∧
    max31335_range_max = civilToEpoch 2199 12 31 23 59 59 := by decide

/-- Claim C10: when the bulk read of the 7 time registers fails with a bus
error `e`, `max31335_read_time` returns that error, performs only the one
failed transaction, and hands back the caller's `rtc_time` with every field
unmodified (no partial decode is stored before the error check). -/
theorem c10_read_time_error_atomic (b : Bus) (tm : rtc_time) (e : Int)
    (hf : b.fails b.tick = some e) :
    max31335_read_time b tm = (Except.error e, { b with tick := b.tick + 1 }, tm) := by
  unfold max31335_read_time busBulkRead
  rw [hf]

theorem c10_read_time_error_atomic_witness :
    max31335_read_time busFail tmWitness =
      (Except.error (-5), { busFail with tick := busFail.tick + 1 }, tmWitness) :=
  c10_read_time_error_atomic busFail tmWitness (-5) rfl

/-- Claim C7: when the status read succeeds and the alarm-pending bit A1F is
already 0, the interrupt handler performs no register access beyond the one
status read (registers unchanged, exactly one transaction), raises no
alarm event, and returns `IRQ_HANDLED`. -/
theorem c7_spurious_irq (b : Bus) (hf : b.fails b.tick = none)
    (hA : b.regs MAX31335_STATUS1 &&& 1 = 0) :
    max31335_handle_irq b = (irqreturn.IRQ_HANDLED, { b with tick := b.tick + 1 }, 0) := by
  unfold max31335_handle_irq busRead
  rw [hf]
  simp [hA]

theorem c7_spurious_irq_witness :
    max31335_handle_irq busZero =
      (irqreturn.IRQ_HANDLED, { busZero with tick := busZero.tick + 1 }, 0) :=
  c7_spurious_irq busZero rfl rfl

/-- Claim C2 (failing): set_alarm is claimed to apply both the
interrupt-enable update and the pending-flag clear.  On a fault-free bus with
A1F latched in STATUS1 and an enabled alarm, the code reports success and
does set the INT_EN enable bit, but the A1F pending flag is still set
afterwards: the `regmap_update_bits(STATUS1, A1F, 0)` of the source is dead
code behind an earlier `return`. -/
theorem c2_pending_clear_dead :
    (max31335_set_alarm busA1F alrmEx).1 = Except.ok () ∧
    (max31335_set_alarm busA1F alrmEx).2.regs MAX31335_INT_EN &&& 1 = 1 ∧
    (max31335_set_alarm busA1F alrmEx).2.regs MAX31335_STATUS1 &&& 1 = 1 := by
  refine ⟨rfl, rfl, rfl⟩

/-- Claim C6 (counterexample): the offset accessors are claimed to interpret
the register as signed 8-bit, with a round trip on the signed range.  Writing
-1 stores byte 0xFF, and reading back yields 255, not -1: the source assigns
the raw register value to `*offset` with no sign extension. -/
theorem c6_no_sign_extension :
    (max31335_read_offset (max31335_set_offset busZero (-1)).2).1 = Except.ok 255 ∧
    (255 : Int) ≠ -1 := ⟨rfl, by decide⟩

/-- Claim C6 (amended): `max31335_read_offset` returns the raw aging-offset
register byte as a nonnegative value (0x80-0xFF read back as 128..255, not as
negative values), `max31335_set_offset` stores the low 8 bits with no
validation, and the round trip set-then-get returns `v` exactly for every
`v` in the unsigned 8-bit range 0..255. -/
theorem c6_offset_roundtrip_uint8 (b : Bus) (v : Int)
    (h0 : 0 ≤ v) (h1 : v ≤ 255)
    (hf0 : b.fails b.tick = none) (hf1 : b.fails (b.tick + 1) = none) :
    (max31335_read_offset (max31335_set_offset b v).2).1 = Except.ok v := by
  unfold max31335_set_offset busWrite
  rw [hf0]
  unfold max31335_read_offset busRead
  simp only []
  rw [hf1]
  simp only [if_true, eq_self_iff_true, Except.ok.injEq]
  omega

theorem c6_offset_roundtrip_uint8_witness :
    (max31335_read_offset (max31335_set_offset busZero 200).2).1 = Except.ok 200 :=
  c6_offset_roundtrip_uint8 busZero 200 (by decide) (by decide) rfl rfl

/-- Claim C1: for every civil time in the supported range (fields in their
calendar ranges and `tm_year` in 100..299, i.e. years 2000..2199), writing it
with `max31335_set_time` and reading back with `max31335_read_time` on a
fault-free bus succeeds and returns exactly the same seven fields. -/
theorem c1_time_roundtrip (tm tm0 : rtc_time) (b : Bus)
    (hf : ∀ n, b.fails n = none)
    (hs0 : 0 ≤ tm.tm_sec) (hs1 : tm.tm_sec ≤ 59)
    (hm0 : 0 ≤ tm.tm_min) (hm1 : tm.tm_min ≤ 59)
    (hh0 : 0 ≤ tm.tm_hour) (hh1 : tm.tm_hour ≤ 23)
    (hd0 : 1 ≤ tm.tm_mday) (hd1 : tm.tm_mday ≤ 31)
    (hmo0 : 0 ≤ tm.tm_mon) (hmo1 : tm.tm_mon ≤ 11)
    (hy0 : 100 ≤ tm.tm_year) (hy1 : tm.tm_year ≤ 299)
    (hw0 : 0 ≤ tm.tm_wday) (hw1 : tm.tm_wday ≤ 6) :
    (max31335_set_time b tm).1 = Except.ok () ∧
    (max31335_read_time (max31335_set_time b tm).2 tm0).1 = Except.ok () ∧
    (max31335_read_time (max31335_set_time b tm).2 tm0).2.2 = tm := by
  obtain ⟨s, mi, h, md, mo, y, w⟩ := tm
  dsimp only at hs0 hs1 hm0 hm1 hh0 hh1 hd0 hd1 hmo0 hmo1 hy0 hy1 hw0 hw1
  unfold max31335_set_time max31335_read_time busBulkWrite busBulkRead
  simp only [hf, MAX31335_SECONDS, MAX31335_MONTH_CENTURY]
  rw [readBytes_writeBytes_7]
  simp only [List.getD_cons_zero, List.getD_cons_succ]
  refine ⟨trivial, trivial, ?_⟩
  rw [rtc_time.mk.injEq]
  refine ⟨?_, ?_, ?_, ?_, ?_, ?_, ?_⟩
  · have hn : toU8 s < 60 := by unfold toU8; omega
    rw [bcd_roundtrip_sec _ hn]
    unfold toU8; omega
  · have hn : toU8 mi < 60 := by unfold toU8; omega
    rw [bcd_roundtrip_sec _ hn]
    unfold toU8; omega
  · have hn : toU8 h < 24 := by unfold toU8; omega
    rw [bcd_roundtrip_hour _ hn]
    unfold toU8; omega
  · have hn : toU8 md < 32 := by unfold toU8; omega
    rw [bcd_roundtrip_mday _ hn]
    unfold toU8; omega
  · have hmo : toU8 (mo + 1) = mo.toNat + 1 := by unfold toU8; omega
    by_cases hy : 200 ≤ y
    · rw [if_pos hy, hmo, (bcd_roundtrip_mon _ (by omega)).1]
      omega
    · rw [if_neg hy, hmo, (bcd_roundtrip_mon _ (by omega)).2]
      omega
  · have hmo : toU8 (mo + 1) = mo.toNat + 1 := by unfold toU8; omega
    have hyy : toU8 (y % 100) = (y % 100).toNat := by unfold toU8; omega
    by_cases hy : 200 ≤ y
    · rw [if_pos hy, hmo, hyy, bcd_roundtrip_year _ (by omega)]
      simp only [(bcd_century_bit mo.toNat (by omega)).1]
      norm_num
      omega
    · rw [if_neg hy, hmo, hyy, bcd_roundtrip_year _ (by omega)]
      simp only [(bcd_century_bit mo.toNat (by omega)).2]
      norm_num
      omega
  · have hw : toU8 (w + 1) = w.toNat + 1 := by unfold toU8; omega
    rw [hw, bcd_roundtrip_wday _ (by omega)]
    omega

/-- Claim C5: `max31335_read_alarm` disambiguates the alarm's 2-digit year by
reading the current time and applying the live century: on the fault-free bus
`busC5`, whose current time decodes to year 2105 (month register `0x81`, year
register BCD `05`, so `tm_year = 205`) and whose alarm year register holds
BCD `07`, the alarm comes back for every incoming descriptor with
`tm_year = 207`, i.e. full year 2107. -/
theorem c5_alarm_century (alrm : rtc_wkalrm) :
    (max31335_read_alarm busC5 alrm).1 = Except.ok () ∧
    (max31335_read_alarm busC5 alrm).2.2.time.tm_year = 207 :=
  ⟨rfl, rfl⟩

/-- Claim C8: requesting the supported trickle resistor 6000 with the diode
enabled writes `FIELD_PREP(TRICKLE, lookup(6000) + 4) | EN_TRICKLE` to the
trickle register (table index 1, so field value 5); requesting any resistor
value outside {3000, 6000, 11000} performs no bus access at all (the bus is
returned unchanged), emits the warning, and still returns success. -/
theorem c8_trickle (b : Bus) (ohms : Nat) (diode : Bool)
    (hf : b.fails b.tick = none)
    (h3 : ohms ≠ 3000) (h6 : ohms ≠ 6000) (h11 : ohms ≠ 11000) :
    ((max31335_trickle_charger_setup b (some 6000) true).1 = Except.ok () ∧
     (max31335_trickle_charger_setup b (some 6000) true).2.1.regs MAX31335_TRICKLE_REG =
       (((max31335_trickle_resistors.findIdx (fun r => 6000 == r) + 4) <<< 1) &&&
         MAX31335_TRICKLE) ||| MAX31335_EN_TRICKLE ∧
     (max31335_trickle_charger_setup b (some 6000) true).2.2 = false) ∧
    ((max31335_trickle_charger_setup b (some ohms) diode).1 = Except.ok () ∧
     (max31335_trickle_charger_setup b (some ohms) diode).2.1 = b ∧
     (max31335_trickle_charger_setup b (some ohms) diode).2.2 = true) := by
  have e3 : (ohms == 3000) = false := by simp [h3]
  have e6 : (ohms == 6000) = false := by simp [h6]
  have e11 : (ohms == 11000) = false := by simp [h11]
  constructor
  · have hidx : List.findIdx (fun r => (6000 : Nat) == r) [3000, 6000, 11000] = 1 := by
      decide
    have hval : ((1 + 4) <<< 1 &&& MAX31335_TRICKLE ||| MAX31335_EN_TRICKLE) = 11 := by
      decide
    have hval5 : ((5 : Nat) <<< 1 &&& MAX31335_TRICKLE ||| MAX31335_EN_TRICKLE) = 11 := by
      decide
    have hmod : (11 : Nat) % 256 = 11 := by norm_num
    have hle : ((3 : Nat) ≤ 1) = False := by simp
    unfold max31335_trickle_charger_setup busWrite
    rw [hf]
    simp [hidx, hval, hval5, hmod, hle, max31335_trickle_resistors]
    decide
  · unfold max31335_trickle_charger_setup
    simp [max31335_trickle_resistors, List.findIdx_cons, e3, e6, e11]

theorem c8_trickle_witness :
    (max31335_trickle_charger_setup busZero (some 6000) true).2.1.regs MAX31335_TRICKLE_REG =
      (((max31335_trickle_resistors.findIdx (fun r => 6000 == r) + 4) <<< 1) &&&
        MAX31335_TRICKLE) ||| MAX31335_EN_TRICKLE ∧
    (max31335_trickle_charger_setup busZero (some 5000) false).2.1 = busZero ∧
    (max31335_trickle_charger_setup busZero (some 5000) false).2.2 = true :=
  ⟨(c8_trickle busZero 5000 false rfl (by decide) (by decide) (by decide)).1.2.1,
   (c8_trickle busZero 5000 false rfl (by decide) (by decide) (by decide)).2.2.1,
   (c8_trickle busZero 5000 false rfl (by decide) (by decide) (by decide)).2.2.2⟩

theorem c1_time_roundtrip_witness :
    (max31335_read_time (max31335_set_time busZero tmWitness).2 rtc_time.zero).2.2 = tmWitness :=
  (c1_time_roundtrip tmWitness rtc_time.zero busZero (fun _ => rfl)
    (by decide) (by decide) (by decide) (by decide) (by decide) (by decide)
    (by decide) (by decide) (by decide) (by decide) (by decide) (by decide)
    (by decide) (by decide)).2.2
